import Mathlib

/-!
Verification of the polymarket-copy-trading core against its specification.

Shallow embedding notes:
- Python `Decimal` and `float` arithmetic is modelled as exact rational
  arithmetic over `ℚ`; the operations used by the embedded code
  (+, -, *, /, max, min, floor, comparisons) coincide with the source on
  the exact values considered.
- `datetime`/`UUID` valued fields are irrelevant to every property below:
  timestamps are omitted and position ids are modelled as `ℕ`.
- `None`-able values are modelled with `Option`.
- Repository stores are modelled as association lists; `save` is upsert.
- Logging calls and human-readable `reason` strings are observability only
  and are omitted from the embedded results.
-/

namespace PolymarketCopy

/-- Python `str.strip()`: drop whitespace from both ends. (Defined on the
character list so that it evaluates by `rfl`/`decide`.) -/
def pyStrip (s : String) : String :=
  String.mk (((s.data.dropWhile Char.isWhitespace).reverse.dropWhile Char.isWhitespace).reverse)

/-- Python truthiness-based `or` on optional strings:
`new or old` keeps `old` when `new` is `None` or the empty string. -/
def pyOrStr (new old : Option String) : Option String :=
  match new with
  | none => old
  | some s => if s = "" then old else some s

/-! ## models/tracking_ledger.py -/

/-- `TrackingLedger` (models/tracking_ledger.py).
`id`, `created_at`, `updated_at` omitted (never used by the verified logic). -/
structure TrackingLedger where
  tracked_wallet : String
  asset : String
  snapshot_t0_shares : ℚ
  post_tracking_shares : ℚ
  close_stage_ref_post_tracking_shares : Option ℚ
deriving Repr, DecidableEq

/-- `TrackingLedger.with_snapshot_t0`. -/
def TrackingLedger.with_snapshot_t0 (l : TrackingLedger) (new_snapshot : ℚ) : TrackingLedger :=
  { l with snapshot_t0_shares := new_snapshot }

/-- `TrackingLedger.with_post_tracking`. -/
def TrackingLedger.with_post_tracking (l : TrackingLedger) (new_post_tracking : ℚ) : TrackingLedger :=
  { l with post_tracking_shares := new_post_tracking }

/-- `TrackingLedger.with_close_stage_ref`. -/
def TrackingLedger.with_close_stage_ref (l : TrackingLedger) (new_ref : Option ℚ) : TrackingLedger :=
  { l with close_stage_ref_post_tracking_shares := new_ref }

/-- `TrackingLedger.add_post_tracking_delta`. -/
def TrackingLedger.add_post_tracking_delta (l : TrackingLedger) (delta : ℚ) : TrackingLedger :=
  l.with_post_tracking (l.post_tracking_shares + delta)

/-- `TrackingLedger.create` (classmethod): strips the asset; snapshot and
post-tracking default to 0 at the Python call sites modelled here. -/
def TrackingLedger.create (tracked_wallet asset : String)
    (snapshot_t0_shares post_tracking_shares : ℚ)
    (close_stage_ref_post_tracking_shares : Option ℚ) : TrackingLedger :=
  { tracked_wallet := tracked_wallet
    asset := pyStrip asset
    snapshot_t0_shares := snapshot_t0_shares
    post_tracking_shares := post_tracking_shares
    close_stage_ref_post_tracking_shares := close_stage_ref_post_tracking_shares }

/-! ## services/tracking_trader/trade_dto.py -/

/-- `DataApiTradeDTO`: only the fields read by the engine and the
orchestrator (`side`, `price`, `size`, `asset`); the remaining metadata
fields never influence the verified logic. -/
structure DataApiTradeDTO where
  side : Option String
  price : Option ℚ
  size : Option ℚ
  asset : Option String
deriving Repr, DecidableEq

/-- The asset normalisation at the top of `PostTrackingEngine.apply_trade`
(and of `CopyTradingEngineService.evaluate_and_execute`):
`trade.asset and str(trade.asset).strip() or None` — a missing, empty, or
whitespace-only asset becomes `None`, otherwise the stripped asset. -/
def normAsset (asset : Option String) : Option String :=
  match asset with
  | none => none
  | some s => if pyStrip s = "" then none else some (pyStrip s)

/-! ## An `ITrackingRepository`-conforming store
(persistence/repositories/interfaces/tracking_repository.py)

The abstract interface documents `get`/`get_or_create`/`save` as keyed by
`(tracked_wallet, asset)`; `get_or_create` creates with snapshot 0 and
post-tracking 0, `save` is an upsert. `add_post_tracking_delta` is concrete
interface code (get-or-create, add delta, save). -/

/-- Ledger store keyed by `(tracked_wallet, asset)`. -/
abbrev TrackingStore := List TrackingLedger

/-- `ITrackingRepository.get`. -/
def tracking_get (s : TrackingStore) (tracked_wallet asset : String) : Option TrackingLedger :=
  s.find? (fun l => l.tracked_wallet == tracked_wallet && l.asset == asset)

/-- `ITrackingRepository.save`: upsert by `(tracked_wallet, asset)`. -/
def tracking_save (s : TrackingStore) (l : TrackingLedger) : TrackingStore :=
  if (s.find? (fun m => m.tracked_wallet == l.tracked_wallet && m.asset == l.asset)).isSome then
    s.map (fun m => if m.tracked_wallet == l.tracked_wallet && m.asset == l.asset then l else m)
  else
    s ++ [l]

/-- `ITrackingRepository.get_or_create`: return the existing ledger or
create one with snapshot_t0 = 0 and post_tracking = 0. -/
def tracking_get_or_create (s : TrackingStore) (tracked_wallet asset : String) :
    TrackingLedger × TrackingStore :=
  match tracking_get s tracked_wallet asset with
  | some l => (l, s)
  | none =>
    let l := TrackingLedger.create tracked_wallet asset 0 0 none
    (l, tracking_save s l)

/-- `ITrackingRepository.add_post_tracking_delta` (concrete interface code):
get-or-create the ledger, add the delta, save, return the updated ledger. -/
def tracking_add_post_tracking_delta (s : TrackingStore) (tracked_wallet asset : String) (delta : ℚ) :
    TrackingLedger × TrackingStore :=
  let p := tracking_get_or_create s tracked_wallet asset
  let u := p.1.add_post_tracking_delta delta
  (u, tracking_save p.2 u)

/-! ## services/trade_processing/post_tracking_engine.py -/

/-- `PostTrackingEngine.apply_trade` against an interface-conforming ledger
store. Returns the updated ledger (`none` when the trade is skipped) and
the resulting store. Mirrors the source validation order: asset, side,
then size. -/
def apply_trade (store : TrackingStore) (wallet : String) (trade : DataApiTradeDTO) :
    Option TrackingLedger × TrackingStore :=
  match normAsset trade.asset with
  | none => (none, store)
  | some asset =>
    if trade.side = some "BUY" ∨ trade.side = some "SELL" then
      match trade.size with
      | none => (none, store)
      | some size =>
        if size ≤ 0 then (none, store)
        else if trade.side = some "BUY" then
          let p := tracking_get_or_create store wallet asset
          let q := tracking_add_post_tracking_delta p.2 wallet asset size
          (some q.1, q.2)
        else
          let p := tracking_get_or_create store wallet asset
          let ledger := p.1
          let new_pt := ledger.post_tracking_shares - size
          if 0 ≤ new_pt then
            let updated := ledger.with_post_tracking new_pt
            (some updated, tracking_save p.2 updated)
          else
            let excess := -new_pt
            let new_snapshot := max 0 (ledger.snapshot_t0_shares - excess)
            let updated := (ledger.with_post_tracking 0).with_snapshot_t0 new_snapshot
            (some updated, tracking_save p.2 updated)
    else (none, store)

/-! ## config/config.py — StrategySettings -/

/-- `StrategySettings` (config/config.py). Pydantic range validation
(`ge`/`le`) is not baked into the type; theorems add bounds as hypotheses
where they matter. -/
structure StrategySettings where
  fixed_position_amount_usdc : ℚ
  max_positions_per_ledger : ℕ
  max_active_ledgers : ℕ
  asset_min_position_percent : ℚ
  asset_min_position_shares : ℚ
  close_total_threshold_pct : ℚ
deriving Repr, DecidableEq

/-! ## services/strategy/close_policy.py -/

/-- `ClosePolicyInput`. -/
structure ClosePolicyInput where
  ledger : TrackingLedger
  open_positions_count : ℕ
deriving Repr, DecidableEq

/-- `ClosePolicy.positions_to_close`, returning the number of positions to
close (the accompanying `reason` string is observability only and omitted). -/
def positions_to_close (inp : ClosePolicyInput) (settings : StrategySettings) : ℤ :=
  if inp.open_positions_count ≤ 0 then 0
  else
    match inp.ledger.close_stage_ref_post_tracking_shares with
    | none => 0
    | some ref_pt =>
      if ref_pt ≤ 0 then 0
      else
        let pt_actual := inp.ledger.post_tracking_shares
        if ref_pt ≤ pt_actual then 0
        else
          let stage_pct_closed := (ref_pt - pt_actual) / ref_pt * 100
          let per_position := settings.close_total_threshold_pct / (inp.open_positions_count : ℚ)
          if per_position ≤ 0 then 0
          else max 0 (min ⌊stage_pct_closed / per_position⌋ (inp.open_positions_count : ℤ))

/-- The close-policy formula exactly as the specification words it:
0 when the stage reference is absent or ≤ 0, when `open_positions_count`
is 0, or when `post_baseline_shares ≥ ref`; otherwise
`floor(((ref - pt) / ref * 100) / (threshold / count))` clamped to
`[0, count]`. Stated from the spec for comparison with `positions_to_close`. -/
def closePolicySpecFormula (ref_opt : Option ℚ) (pt : ℚ) (count : ℕ) (threshold_pct : ℚ) : ℤ :=
  match ref_opt with
  | none => 0
  | some ref =>
    if ref ≤ 0 then 0
    else if count = 0 then 0
    else if ref ≤ pt then 0
    else max 0 (min ⌊((ref - pt) / ref * 100) / (threshold_pct / (count : ℚ))⌋ (count : ℤ))

/-! ## services/strategy/open_policy.py -/

/-- `OpenPolicyInput`. -/
structure OpenPolicyInput where
  ledger : TrackingLedger
  open_positions_count : ℕ
  active_ledgers_count : ℕ
  account_total_value_usdc : ℚ
  post_tracking_value_usdc : ℚ
deriving Repr, DecidableEq

/-- `OpenPolicy.should_open`, returning the decision (the `reason` string
is observability only and omitted). Gate order as in the source:
max positions per ledger, max active ledgers (new-asset case only),
post-tracking > 0, then shares threshold first and percent threshold
second. -/
def should_open (inp : OpenPolicyInput) (settings : StrategySettings) : Bool :=
  if settings.max_positions_per_ledger ≤ inp.open_positions_count then false
  else if inp.open_positions_count = 0 ∧ settings.max_active_ledgers ≤ inp.active_ledgers_count then
    false
  else if inp.ledger.post_tracking_shares ≤ 0 then false
  else if settings.asset_min_position_shares ≤ inp.ledger.post_tracking_shares then true
  else if 0 < settings.asset_min_position_percent ∧ 0 < inp.account_total_value_usdc ∧
      ((inp.open_positions_count : ℚ) + 1) * settings.asset_min_position_percent / 100 ≤
        inp.post_tracking_value_usdc / inp.account_total_value_usdc then
    true
  else false

/-! ## models/bot_position.py -/

/-- `PositionStatus` lifecycle enum. -/
inductive PositionStatus where
  | OPEN
  | CLOSING_PENDING
  | CLOSED
deriving Repr, DecidableEq

/-- `BotPosition` (models/bot_position.py). `id` and `ledger_id` are
modelled as `ℕ`; the `datetime` fields (`opened_at`, `closed_at`,
`close_requested_at`) and `entry_price` are omitted: no verified property
reads them. -/
structure BotPosition where
  id : ℕ
  ledger_id : ℕ
  tracked_wallet : String
  asset : String
  shares_held : ℚ
  status : PositionStatus
  entry_cost_usdc : Option ℚ
  close_proceeds_usdc : Option ℚ
  fees : ℚ
  close_order_id : Option String
  close_transaction_hash : Option String
  close_attempts : ℕ
deriving Repr, DecidableEq

/-- `BotPosition.is_open`. -/
def BotPosition.is_open (p : BotPosition) : Bool := p.status == PositionStatus.OPEN

/-- `BotPosition.is_closing_pending`. -/
def BotPosition.is_closing_pending (p : BotPosition) : Bool :=
  p.status == PositionStatus.CLOSING_PENDING

/-- `BotPosition.with_closing_pending`: status becomes CLOSING_PENDING,
order/tx metadata is overwritten when provided (Python `or` keeps the old
value on `None`/empty), and `close_attempts` is incremented. -/
def BotPosition.with_closing_pending (p : BotPosition)
    (close_order_id close_transaction_hash : Option String) : BotPosition :=
  { p with
    status := PositionStatus.CLOSING_PENDING
    close_order_id := pyOrStr close_order_id p.close_order_id
    close_transaction_hash := pyOrStr close_transaction_hash p.close_transaction_hash
    close_attempts := p.close_attempts + 1 }

/-- `BotPosition.with_closed`: status becomes CLOSED; proceeds are replaced
only when given (`is not None` check); `close_fees or 0` is added to fees;
order/tx metadata merged with Python `or`. -/
def BotPosition.with_closed (p : BotPosition)
    (close_proceeds_usdc close_fees : Option ℚ)
    (close_order_id close_transaction_hash : Option String) : BotPosition :=
  { p with
    status := PositionStatus.CLOSED
    close_proceeds_usdc :=
      match close_proceeds_usdc with
      | some v => some v
      | none => p.close_proceeds_usdc
    fees := p.fees + close_fees.getD 0
    close_order_id := pyOrStr close_order_id p.close_order_id
    close_transaction_hash := pyOrStr close_transaction_hash p.close_transaction_hash }

/-- `BotPosition.realized_pnl_usdc`: `None` unless CLOSED with both entry
cost and close proceeds present, else `close_proceeds - entry_cost`. -/
def BotPosition.realized_pnl_usdc (p : BotPosition) : Option ℚ :=
  if p.status ≠ PositionStatus.CLOSED then none
  else
    match p.entry_cost_usdc, p.close_proceeds_usdc with
    | some cost, some proceeds => some (proceeds - cost)
    | _, _ => none

/-- `BotPosition.net_pnl_usdc`: realized PnL minus cumulative fees. -/
def BotPosition.net_pnl_usdc (p : BotPosition) : Option ℚ :=
  match p.realized_pnl_usdc with
  | none => none
  | some pnl => some (pnl - p.fees)

/-! ## services/pnl/pnl_service.py -/

/-- `PnLResult`. -/
structure PnLResult where
  realized_pnl_usdc : Option ℚ
  net_pnl_usdc : Option ℚ
  entry_cost_usdc : Option ℚ
  close_proceeds_usdc : Option ℚ
  total_fees_usdc : ℚ
deriving Repr, DecidableEq

/-- `PnLService.compute` (pure). -/
def PnLService.compute (p : BotPosition) : PnLResult :=
  { realized_pnl_usdc := p.realized_pnl_usdc
    net_pnl_usdc := p.net_pnl_usdc
    entry_cost_usdc := p.entry_cost_usdc
    close_proceeds_usdc := p.close_proceeds_usdc
    total_fees_usdc := p.fees }

/-! ## persistence/repositories/in_memory/bot_position_repository.py -/

/-- Position store keyed by position id. -/
abbrev PositionStore := List BotPosition

/-- `InMemoryBotPositionRepository.get`. -/
def position_get (s : PositionStore) (position_id : ℕ) : Option BotPosition :=
  s.find? (fun p => p.id == position_id)

/-- `InMemoryBotPositionRepository.save`: upsert by id. -/
def position_save (s : PositionStore) (p : BotPosition) : PositionStore :=
  if (s.find? (fun q => q.id == p.id)).isSome then
    s.map (fun q => if q.id == p.id then p else q)
  else
    s ++ [p]

/-- `InMemoryBotPositionRepository.mark_closing_pending`: set status
CLOSING_PENDING and update close-tracking metadata; `None` when the
position is missing; a position that is neither OPEN nor CLOSING_PENDING
is returned unchanged without saving. -/
def mark_closing_pending (s : PositionStore) (position_id : ℕ)
    (close_order_id close_transaction_hash : Option String) :
    Option BotPosition × PositionStore :=
  match position_get s position_id with
  | none => (none, s)
  | some position =>
    if !position.is_open && !position.is_closing_pending then (some position, s)
    else
      let updated := position.with_closing_pending close_order_id close_transaction_hash
      (some updated, position_save s updated)

/-- `InMemoryBotPositionRepository.confirm_closed`: move a CLOSING_PENDING
position to CLOSED with the given close amounts; `None` when the position
is missing or still OPEN; a position that is neither (i.e. already CLOSED)
is returned unchanged without saving. -/
def confirm_closed (s : PositionStore) (position_id : ℕ)
    (close_proceeds_usdc close_fees : Option ℚ)
    (close_order_id close_transaction_hash : Option String) :
    Option BotPosition × PositionStore :=
  match position_get s position_id with
  | none => (none, s)
  | some position =>
    if position.is_open then (none, s)
    else if !position.is_closing_pending then (some position, s)
    else
      let updated :=
        position.with_closed close_proceeds_usdc close_fees close_order_id close_transaction_hash
      (some updated, position_save s updated)

/-! ## services/order_analysis/order_analysis_worker.py (close path) -/

/-- `PendingOrder` fields used on the close path (`is_open = False`). -/
structure PendingOrderClose where
  position_id : ℕ
  order_id : String
  transaction_hash : Option String
deriving Repr, DecidableEq

/-- Result of `_apply_trade_to_position`: the updated position (if any),
the resulting store, and the reasons of the `CopyTradeFailedEvent`s
emitted. -/
structure WorkerCloseResult where
  updated : Option BotPosition
  store : PositionStore
  events : List String
deriving Repr, DecidableEq

/-- `OrderAnalysisWorker._apply_trade_to_position` for a pending close
order whose matched trade parsed successfully: `notional` and `fee` are
the already-parsed `size * price` and fee; `trade_tx` is the matched
trade's transaction hash. A missing position emits `position_not_found`;
a `confirm_closed` that returns `None` emits `position_update_failed`
(via `_update_closed_position`, which forwards the pending order id and
the trade's transaction hash). -/
def apply_trade_to_position_close (s : PositionStore) (pending : PendingOrderClose)
    (notional fee : ℚ) (trade_tx : Option String) : WorkerCloseResult :=
  match position_get s pending.position_id with
  | none => { updated := none, store := s, events := ["position_not_found"] }
  | some _position =>
    let r := confirm_closed s pending.position_id (some notional) (some fee)
      (some pending.order_id) trade_tx
    match r.1 with
    | none => { updated := none, store := r.2, events := ["position_update_failed"] }
    | some updated => { updated := some updated, store := r.2, events := [] }

/-! ## Python call compatibility
(the dynamic-call errors the claims C1 and C2 are about) -/

/-- A Python keyword-argument call binds: every supplied keyword must be a
parameter name, and every parameter without a default must be supplied. -/
def pyKwCallBinds (params required kwargs : List String) : Bool :=
  kwargs.all (fun k => params.contains k) && required.all (fun r => kwargs.contains r)

/-- Parameter names of `IBotPositionRepository.mark_closed`
(position_id, closed_at; the interface default implementation, not
overridden by the in-memory repository). -/
def mark_closed_params : List String := ["position_id", "closed_at"]

/-- Keyword arguments the orchestrator's SELL path passes to
`mark_closed` (copy_trading_engine_service.py, `_handle_sell`). -/
def handle_sell_mark_closed_kwargs : List String :=
  ["closed_at", "close_proceeds_usdc", "close_fees"]

/-- Body of the interface's `mark_closed`: load by id; a missing or
non-OPEN position is returned as-is without saving; otherwise
`with_closed(closed_at)` (no close amounts, no order/tx metadata) is
saved and returned. -/
def mark_closed_body (s : PositionStore) (position_id : ℕ) : Option BotPosition × PositionStore :=
  match position_get s position_id with
  | none => (none, s)
  | some position =>
    if !position.is_open then (some position, s)
    else
      let updated := position.with_closed none none none none
      (some updated, position_save s updated)

/-- Calling `mark_closed` with a set of keyword arguments: Python raises
`TypeError` when a keyword does not match a parameter name, before the
body runs. (`position_id` is passed positionally by the orchestrator.) -/
def mark_closed_call (s : PositionStore) (position_id : ℕ) (kwargs : List String) :
    Except String (Option BotPosition × PositionStore) :=
  if pyKwCallBinds mark_closed_params ["position_id"] ("position_id" :: kwargs) then
    Except.ok (mark_closed_body s position_id)
  else
    Except.error "TypeError: mark_closed() got an unexpected keyword argument"

/-- The repository call the orchestrator's SELL path makes for each
position selected for closing:
`mark_closed(position.id, closed_at=..., close_proceeds_usdc=None, close_fees=None)`. -/
def handle_sell_close_step (s : PositionStore) (position_id : ℕ) :
    Except String (Option BotPosition × PositionStore) :=
  mark_closed_call s position_id handle_sell_mark_closed_kwargs

/-! ## persistence/repositories/in_memory/tracking_repository.py
and its wiring into the engine (DI/container.py)

The in-memory tracking repository is keyed by
`(wallet, condition_id, outcome)` — three required positional parameters —
while the engine calls `get_or_create(wallet, asset)` with two. On a
missing key it would build `TrackingLedger` with `condition_id`/`outcome`
keyword arguments that `TrackingLedger.create` does not accept (and
without the required `asset`), and its `save` reads `ledger.condition_id`,
an attribute `TrackingLedger` does not have. -/

/-- Parameter names of `TrackingLedger.create` (models/tracking_ledger.py). -/
def tracking_ledger_create_params : List String :=
  ["tracked_wallet", "asset", "snapshot_t0_shares", "post_tracking_shares",
   "close_stage_ref_post_tracking_shares", "id", "created_at", "updated_at"]

/-- Parameters of `TrackingLedger.create` without a default value. -/
def tracking_ledger_create_required : List String := ["tracked_wallet", "asset"]

/-- Keyword arguments `InMemoryTrackingRepository.get_or_create` passes to
`TrackingLedger.create` on a missing key. -/
def in_memory_create_call_kwargs : List String := ["tracked_wallet", "condition_id", "outcome"]

/-- In-memory tracking store: dict keyed by (wallet, condition_id, outcome). -/
abbrev InMemoryTrackingStore := List ((String × String × String) × TrackingLedger)

/-- `InMemoryTrackingRepository.get_or_create` called with a list of
positional arguments. A call with other than the three required arguments
raises `TypeError`; on a missing key the `TrackingLedger.create` call
raises `TypeError` because its keyword arguments do not bind. -/
def in_memory_get_or_create (store : InMemoryTrackingStore) (args : List String) :
    Except String (TrackingLedger × InMemoryTrackingStore) :=
  match args with
  | [tracked_wallet, condition_id, outcome] =>
    match store.find? (fun e => e.1 == (tracked_wallet, condition_id, outcome)) with
    | some e => Except.ok (e.2, store)
    | none =>
      if pyKwCallBinds tracking_ledger_create_params tracking_ledger_create_required
          in_memory_create_call_kwargs then
        -- unreachable: the keyword check above is decidably false
        -- (`condition_id`/`outcome` are not parameters and `asset` is missing)
        Except.ok (TrackingLedger.create tracked_wallet "" 0 0 none, store)
      else
        Except.error "TypeError: TrackingLedger.create() got an unexpected keyword argument"
  | _ => Except.error "TypeError: get_or_create() missing required positional arguments"

/-- `InMemoryTrackingRepository.save` reads `ledger.condition_id` and
`ledger.outcome` to build the key; `TrackingLedger` (a slotted frozen
dataclass) has neither attribute, so the call always raises. -/
def in_memory_save (_store : InMemoryTrackingStore) (_ledger : TrackingLedger) :
    Except String InMemoryTrackingStore :=
  Except.error "AttributeError: TrackingLedger object has no attribute condition_id"

/-- `PostTrackingEngine.apply_trade` as wired by the DI container
(`tracking_repository = InMemoryTrackingRepository`): the same validation
as `apply_trade`, but every repository interaction goes through the
in-memory implementation whose signatures do not match the engine's
`(wallet, asset)` calls. -/
def apply_trade_wired (store : InMemoryTrackingStore) (wallet : String)
    (trade : DataApiTradeDTO) : Except String (Option TrackingLedger) :=
  match normAsset trade.asset with
  | none => Except.ok none
  | some asset =>
    if trade.side = some "BUY" ∨ trade.side = some "SELL" then
      match trade.size with
      | none => Except.ok none
      | some size =>
        if size ≤ 0 then Except.ok none
        else if trade.side = some "BUY" then
          -- BUY: get_or_create(wallet, asset), then
          -- add_post_tracking_delta(wallet, asset, size), which itself
          -- begins with get_or_create(wallet, asset)
          match in_memory_get_or_create store [wallet, asset] with
          | Except.error e => Except.error e
          | Except.ok p =>
            match in_memory_get_or_create p.2 [wallet, asset] with
            | Except.error e => Except.error e
            | Except.ok q =>
              let updated := q.1.add_post_tracking_delta size
              match in_memory_save q.2 updated with
              | Except.error e => Except.error e
              | Except.ok _ => Except.ok (some updated)
        else
          -- SELL: get_or_create(wallet, asset), compute, save(updated)
          match in_memory_get_or_create store [wallet, asset] with
          | Except.error e => Except.error e
          | Except.ok p =>
            let ledger := p.1
            let new_pt := ledger.post_tracking_shares - size
            if 0 ≤ new_pt then
              let updated := ledger.with_post_tracking new_pt
              match in_memory_save p.2 updated with
              | Except.error e => Except.error e
              | Except.ok _ => Except.ok (some updated)
            else
              let new_snapshot := max 0 (ledger.snapshot_t0_shares - (-new_pt))
              let updated := (ledger.with_post_tracking 0).with_snapshot_t0 new_snapshot
              match in_memory_save p.2 updated with
              | Except.error e => Except.error e
              | Except.ok _ => Except.ok (some updated)
    else Except.ok none

/-! ## Theorems -/

/-- C1: the orchestrator's SELL path claims to transition each selected
position to CLOSING_PENDING regardless of submission success. In the code,
the repository call it makes for every selected position —
`mark_closed(position.id, closed_at=..., close_proceeds_usdc=None, close_fees=None)` —
passes keyword arguments `mark_closed` does not accept, so it raises
`TypeError` for every store and position; no position ever reaches
CLOSING_PENDING on this path. -/
theorem claim_C1_sell_mark_closed_raises (s : PositionStore) (position_id : ℕ) :
    handle_sell_close_step s position_id =
      Except.error "TypeError: mark_closed() got an unexpected keyword argument" := by
  rfl

/-- C4: `confirm_closed` moves a position to CLOSED only from
CLOSING_PENDING: on an OPEN position it returns `none` and leaves the
store unchanged, and whenever the store changes at all the stored position
was in CLOSING_PENDING status. -/
theorem claim_C4_confirm_closed_only_from_pending :
    (∀ (s : PositionStore) (position_id : ℕ) (p : BotPosition)
        (cp cf : Option ℚ) (oid tx : Option String),
      position_get s position_id = some p → p.status = PositionStatus.OPEN →
      confirm_closed s position_id cp cf oid tx = (none, s)) ∧
    (∀ (s : PositionStore) (position_id : ℕ) (cp cf : Option ℚ) (oid tx : Option String),
      (confirm_closed s position_id cp cf oid tx).2 ≠ s →
      ∃ p, position_get s position_id = some p ∧ p.status = PositionStatus.CLOSING_PENDING) := by
  constructor
  · intro s position_id p cp cf oid tx hget hst
    unfold confirm_closed
    rw [hget]
    simp [BotPosition.is_open, hst]
  · intro s position_id cp cf oid tx hchanged
    unfold confirm_closed at hchanged
    rcases hget : position_get s position_id with _ | p
    · rw [hget] at hchanged
      exact absurd rfl hchanged
    · rw [hget] at hchanged
      rcases hst : p.status with _ | _ | _
      · simp [BotPosition.is_open, hst] at hchanged
      · exact ⟨p, rfl, hst⟩
      · simp [BotPosition.is_open, BotPosition.is_closing_pending, hst] at hchanged

/-- Witness for C4 at a concrete OPEN position. -/
theorem claim_C4_witness :
    position_get [⟨3, 1, "w", "a", 4, PositionStatus.OPEN, some 10, none, 0, none, none, 0⟩] 3 =
      some ⟨3, 1, "w", "a", 4, PositionStatus.OPEN, some 10, none, 0, none, none, 0⟩ ∧
    confirm_closed [⟨3, 1, "w", "a", 4, PositionStatus.OPEN, some 10, none, 0, none, none, 0⟩] 3
        (some 12) (some 1) (some "o") none =
      (none, [⟨3, 1, "w", "a", 4, PositionStatus.OPEN, some 10, none, 0, none, none, 0⟩]) :=
  ⟨rfl, claim_C4_confirm_closed_only_from_pending.1
    [⟨3, 1, "w", "a", 4, PositionStatus.OPEN, some 10, none, 0, none, none, 0⟩] 3
    ⟨3, 1, "w", "a", 4, PositionStatus.OPEN, some 10, none, 0, none, none, 0⟩
    (some 12) (some 1) (some "o") none rfl rfl⟩

/-- C9: `PnLService.compute` yields `realized = none` and `net = none`
whenever the position is not CLOSED or entry cost / close proceeds is
missing; on a CLOSED position with both amounts it yields
`realized = proceeds - cost` and `net = realized - fees`. -/
theorem claim_C9_pnl_compute (p : BotPosition) :
    ((p.status ≠ PositionStatus.CLOSED ∨ p.entry_cost_usdc = none ∨
        p.close_proceeds_usdc = none) →
      (PnLService.compute p).realized_pnl_usdc = none ∧ (PnLService.compute p).net_pnl_usdc = none) ∧
    (∀ cost proceeds, p.status = PositionStatus.CLOSED → p.entry_cost_usdc = some cost →
      p.close_proceeds_usdc = some proceeds →
      (PnLService.compute p).realized_pnl_usdc = some (proceeds - cost) ∧
      (PnLService.compute p).net_pnl_usdc = some (proceeds - cost - p.fees)) := by
  obtain ⟨i, li, w, a, sh, st, ec, cp, f, oid, tx, att⟩ := p
  cases st <;> cases ec <;> cases cp <;>
    simp [PnLService.compute, BotPosition.realized_pnl_usdc, BotPosition.net_pnl_usdc]

/-- Witness for C9: entry cost 10, proceeds 13, fees 1 give realized 3 and
net 2 on a CLOSED position. -/
theorem claim_C9_witness :
    (PnLService.compute ⟨1, 1, "w", "a", 4, PositionStatus.CLOSED, some 10, some 13, 1,
        none, none, 0⟩).realized_pnl_usdc = some 3 ∧
    (PnLService.compute ⟨1, 1, "w", "a", 4, PositionStatus.CLOSED, some 10, some 13, 1,
        none, none, 0⟩).net_pnl_usdc = some 2 := by
  have h := (claim_C9_pnl_compute
    ⟨1, 1, "w", "a", 4, PositionStatus.CLOSED, some 10, some 13, 1, none, none, 0⟩).2
    10 13 rfl rfl rfl
  norm_num at h
  exact h

/-- C10: `apply_trade` on a trade with a missing/empty asset, an invalid
side, or a missing or non-positive size returns nothing and leaves the
ledger store unchanged. -/
theorem claim_C10_apply_trade_skips_invalid (store : TrackingStore) (wallet : String)
    (trade : DataApiTradeDTO)
    (h : normAsset trade.asset = none ∨
      (trade.side ≠ some "BUY" ∧ trade.side ≠ some "SELL") ∨
      trade.size = none ∨ ∃ s, trade.size = some s ∧ s ≤ 0) :
    apply_trade store wallet trade = (none, store) := by
  unfold apply_trade
  rcases hA : normAsset trade.asset with _ | asset
  · rfl
  · dsimp only
    rcases h with h | h | h | ⟨s, hs, hs0⟩
    · rw [hA] at h
      cases h
    · rw [if_neg (not_or.mpr ⟨h.1, h.2⟩)]
    · by_cases hside : trade.side = some "BUY" ∨ trade.side = some "SELL"
      · rw [if_pos hside, h]
      · rw [if_neg hside]
    · by_cases hside : trade.side = some "BUY" ∨ trade.side = some "SELL"
      · rw [if_pos hside, hs]
        dsimp only
        rw [if_pos hs0]
      · rw [if_neg hside]

/-- Witness for C10: a trade with side `HOLD` is skipped. -/
theorem claim_C10_witness :
    ((some "HOLD" : Option String) ≠ some "BUY" ∧ (some "HOLD" : Option String) ≠ some "SELL") ∧
    apply_trade [] "w" ⟨some "HOLD", none, some 1, some "a"⟩ = (none, []) :=
  ⟨⟨by decide, by decide⟩,
    claim_C10_apply_trade_skips_invalid [] "w" ⟨some "HOLD", none, some 1, some "a"⟩
      (Or.inr (Or.inl ⟨by decide, by decide⟩))⟩

/-- C3 counterexample: a matched close trade for a position that is
already CLOSED (not CLOSING_PENDING). The transition is refused and the
store is unchanged, but no `position_update_failed` event is emitted —
`confirm_closed` returns the unchanged position (not `None`), so the
worker treats it as a successful update. This refutes the claim that a
refusal for any non-CLOSING_PENDING status emits `position_update_failed`. -/
theorem claim_C3_counterexample :
    (⟨7, 1, "w", "a", 4, PositionStatus.CLOSED, some 10, some 13, 1, none, none,
        1⟩ : BotPosition).status ≠ PositionStatus.CLOSING_PENDING ∧
    (apply_trade_to_position_close
        [⟨7, 1, "w", "a", 4, PositionStatus.CLOSED, some 10, some 13, 1, none, none, 1⟩]
        ⟨7, "oid", some "0xtx"⟩ 12 1 (some "0xtx")).store =
      [⟨7, 1, "w", "a", 4, PositionStatus.CLOSED, some 10, some 13, 1, none, none, 1⟩] ∧
    (apply_trade_to_position_close
        [⟨7, 1, "w", "a", 4, PositionStatus.CLOSED, some 10, some 13, 1, none, none, 1⟩]
        ⟨7, "oid", some "0xtx"⟩ 12 1 (some "0xtx")).events = [] :=
  ⟨by decide, rfl, rfl⟩

/-- C3 amended: when the reconciliation worker matches an exchange trade
for a pending close order and the stored position is not in
CLOSING_PENDING status, the transition is refused and the stored position
is left unchanged; the worker emits `position_update_failed` exactly when
the position is OPEN (`confirm_closed` returns `None`); for an
already-CLOSED position the refusal is silent. -/
theorem claim_C3_amended (s : PositionStore) (pending : PendingOrderClose)
    (p : BotPosition) (notional fee : ℚ) (trade_tx : Option String)
    (hget : position_get s pending.position_id = some p)
    (hst : p.status ≠ PositionStatus.CLOSING_PENDING) :
    (apply_trade_to_position_close s pending notional fee trade_tx).store = s ∧
    ((apply_trade_to_position_close s pending notional fee trade_tx).events =
        ["position_update_failed"] ↔ p.status = PositionStatus.OPEN) := by
  unfold apply_trade_to_position_close confirm_closed
  rw [hget]
  rcases hstatus : p.status with _ | _ | _
  · simp [BotPosition.is_open, hstatus]
  · exact absurd hstatus hst
  · simp [BotPosition.is_open, BotPosition.is_closing_pending, hstatus]

/-- Witness for C3 (amended) at a concrete OPEN position: refusal with a
`position_update_failed` event. -/
theorem claim_C3_witness :
    position_get [⟨7, 1, "w", "a", 4, PositionStatus.OPEN, some 10, none, 1, none, none, 0⟩] 7 =
      some ⟨7, 1, "w", "a", 4, PositionStatus.OPEN, some 10, none, 1, none, none, 0⟩ ∧
    (apply_trade_to_position_close
        [⟨7, 1, "w", "a", 4, PositionStatus.OPEN, some 10, none, 1, none, none, 0⟩]
        ⟨7, "oid", some "0xtx"⟩ 12 1 (some "0xtx")).store =
      [⟨7, 1, "w", "a", 4, PositionStatus.OPEN, some 10, none, 1, none, none, 0⟩] ∧
    (apply_trade_to_position_close
        [⟨7, 1, "w", "a", 4, PositionStatus.OPEN, some 10, none, 1, none, none, 0⟩]
        ⟨7, "oid", some "0xtx"⟩ 12 1 (some "0xtx")).events = ["position_update_failed"] := by
  have h := claim_C3_amended
    [⟨7, 1, "w", "a", 4, PositionStatus.OPEN, some 10, none, 1, none, none, 0⟩]
    ⟨7, "oid", some "0xtx"⟩
    ⟨7, 1, "w", "a", 4, PositionStatus.OPEN, some 10, none, 1, none, none, 0⟩
    12 1 (some "0xtx") rfl (by decide)
  exact ⟨rfl, h.1, h.2.mpr rfl⟩

/-- C2: with the repository the DI container wires in
(`InMemoryTrackingRepository`), `apply_trade` on any valid BUY or SELL
raises instead of returning an updated ledger: the engine's two-argument
`get_or_create(wallet, asset)` call does not satisfy the repository's
three required parameters `(wallet, condition_id, outcome)`; moreover the
repository's missing-key path builds `TrackingLedger` with
`condition_id`/`outcome` keyword arguments that `TrackingLedger.create`
does not bind. -/
theorem claim_C2_wired_apply_trade_raises (store : InMemoryTrackingStore) (wallet : String)
    (trade : DataApiTradeDTO) (asset : String) (sz : ℚ)
    (hA : normAsset trade.asset = some asset)
    (hside : trade.side = some "BUY" ∨ trade.side = some "SELL")
    (hsz : trade.size = some sz) (hpos : 0 < sz) :
    apply_trade_wired store wallet trade =
      Except.error "TypeError: get_or_create() missing required positional arguments" ∧
    pyKwCallBinds tracking_ledger_create_params tracking_ledger_create_required
      in_memory_create_call_kwargs = false := by
  refine ⟨?_, by decide⟩
  unfold apply_trade_wired
  rw [hA]
  dsimp only
  rw [if_pos hside, hsz]
  dsimp only
  rw [if_neg (not_le.mpr hpos)]
  rcases hside with h | h
  · rw [if_pos h]
    rfl
  · rw [if_neg (by rw [h]; decide)]
    rfl

/-- Witness for C2: a valid BUY of size 5 on asset `a`. -/
theorem claim_C2_witness :
    normAsset (some "a") = some "a" ∧ (0 : ℚ) < 5 ∧
    apply_trade_wired [] "w" ⟨some "BUY", none, some 5, some "a"⟩ =
      Except.error "TypeError: get_or_create() missing required positional arguments" :=
  ⟨by decide, by norm_num,
    (claim_C2_wired_apply_trade_raises [] "w" ⟨some "BUY", none, some 5, some "a"⟩ "a" 5
      (by decide) (Or.inl rfl) rfl (by norm_num)).1⟩

/-- C5: a valid SELL of size `s` against an existing ledger with
non-negative share counts drains `post_tracking_shares` first and only
then `snapshot_t0_shares` (floored at zero): if `s ≤ post_tracking` the
post-tracking count drops by `s` and the snapshot is untouched; otherwise
post-tracking becomes 0 and the snapshot becomes
`max 0 (snapshot - (s - post_tracking))`; both results are non-negative. -/
theorem claim_C5_sell_drains_post_then_snapshot (store : TrackingStore) (wallet : String)
    (trade : DataApiTradeDTO) (asset : String) (s : ℚ) (l : TrackingLedger)
    (hA : normAsset trade.asset = some asset)
    (hside : trade.side = some "SELL")
    (hsz : trade.size = some s) (hpos : 0 < s)
    (hget : tracking_get store wallet asset = some l)
    (hsnap : 0 ≤ l.snapshot_t0_shares) (_hpt : 0 ≤ l.post_tracking_shares) :
    ∃ u, (apply_trade store wallet trade).1 = some u ∧
      (s ≤ l.post_tracking_shares →
        u.post_tracking_shares = l.post_tracking_shares - s ∧
        u.snapshot_t0_shares = l.snapshot_t0_shares) ∧
      (l.post_tracking_shares < s →
        u.post_tracking_shares = 0 ∧
        u.snapshot_t0_shares = max 0 (l.snapshot_t0_shares - (s - l.post_tracking_shares))) ∧
      0 ≤ u.post_tracking_shares ∧ 0 ≤ u.snapshot_t0_shares := by
  unfold apply_trade
  rw [hA]
  dsimp only
  rw [if_pos (Or.inr hside), hsz]
  dsimp only
  rw [if_neg (not_le.mpr hpos), if_neg (by rw [hside]; decide)]
  unfold tracking_get_or_create
  rw [hget]
  dsimp only
  by_cases hle : s ≤ l.post_tracking_shares
  · rw [if_pos (sub_nonneg.mpr hle)]
    refine ⟨l.with_post_tracking (l.post_tracking_shares - s), rfl, fun _ => ⟨rfl, rfl⟩,
      fun hlt => absurd hle (not_le.mpr hlt), sub_nonneg.mpr hle, hsnap⟩
  · rw [if_neg (fun hc => hle (sub_nonneg.mp hc))]
    refine ⟨_, rfl, fun hle2 => absurd hle2 hle, fun _ => ⟨rfl, ?_⟩, le_refl 0, le_max_left 0 _⟩
    show (0 : ℚ) ⊔ (l.snapshot_t0_shares - -(l.post_tracking_shares - s)) =
      0 ⊔ (l.snapshot_t0_shares - (s - l.post_tracking_shares))
    rw [neg_sub]

/-- Witness for C5: SELL of 12 against snapshot 5, post-tracking 10:
post-tracking 0, snapshot `max 0 (5 - 2) = 3`. -/
theorem claim_C5_witness :
    tracking_get [⟨"w", "a", 5, 10, none⟩] "w" "a" = some ⟨"w", "a", 5, 10, none⟩ ∧
    ∃ u, (apply_trade [⟨"w", "a", 5, 10, none⟩] "w"
        ⟨some "SELL", none, some 12, some "a"⟩).1 = some u ∧
      u.post_tracking_shares = 0 ∧ u.snapshot_t0_shares = 3 := by
  obtain ⟨u, hu, -, hgt, -, -⟩ := claim_C5_sell_drains_post_then_snapshot
    [⟨"w", "a", 5, 10, none⟩] "w" ⟨some "SELL", none, some 12, some "a"⟩ "a" 12
    ⟨"w", "a", 5, 10, none⟩ (by decide) rfl rfl (by norm_num) rfl (by norm_num) (by norm_num)
  obtain ⟨hpt0, hsnap3⟩ := hgt (by norm_num)
  refine ⟨rfl, u, hu, hpt0, ?_⟩
  rw [hsnap3]
  norm_num

/-- C7: once the capacity gates pass and there is post-tracking to copy,
`should_open` approves whenever the shares threshold is met, regardless of
the percent settings; otherwise it approves exactly when percent mode is
enabled, the account value is positive, and the exposure ratio meets the
escalating `(count + 1) * percent / 100` threshold. -/
theorem claim_C7_open_policy_double_threshold (inp : OpenPolicyInput)
    (settings : StrategySettings)
    (h1 : inp.open_positions_count < settings.max_positions_per_ledger)
    (h2 : ¬ (inp.open_positions_count = 0 ∧
      settings.max_active_ledgers ≤ inp.active_ledgers_count))
    (h3 : 0 < inp.ledger.post_tracking_shares) :
    (settings.asset_min_position_shares ≤ inp.ledger.post_tracking_shares →
      should_open inp settings = true) ∧
    (inp.ledger.post_tracking_shares < settings.asset_min_position_shares →
      (should_open inp settings = true ↔
        0 < settings.asset_min_position_percent ∧ 0 < inp.account_total_value_usdc ∧
        ((inp.open_positions_count : ℚ) + 1) * settings.asset_min_position_percent / 100 ≤
          inp.post_tracking_value_usdc / inp.account_total_value_usdc)) := by
  unfold should_open
  rw [if_neg (not_le.mpr h1), if_neg h2, if_neg (not_le.mpr h3)]
  constructor
  · intro h
    rw [if_pos h]
  · intro h
    rw [if_neg (not_le.mpr h)]
    by_cases hp : 0 < settings.asset_min_position_percent ∧
        0 < inp.account_total_value_usdc ∧
        ((inp.open_positions_count : ℚ) + 1) * settings.asset_min_position_percent / 100 ≤
          inp.post_tracking_value_usdc / inp.account_total_value_usdc
    · rw [if_pos hp]
      simp [hp]
    · rw [if_neg hp]
      simp [hp]

/-- Witness for C7: `asset_min_position_shares = 50` and
`post_tracking_shares = 50` is approved with percent disabled. -/
theorem claim_C7_witness :
    (0 : ℕ) < 5 ∧ (0 : ℚ) < 50 ∧
    should_open ⟨⟨"w", "a", 0, 50, none⟩, 0, 0, 0, 0⟩ ⟨10, 5, 10, 0, 50, 80⟩ = true :=
  ⟨by norm_num, by norm_num,
    (claim_C7_open_policy_double_threshold ⟨⟨"w", "a", 0, 50, none⟩, 0, 0, 0, 0⟩
      ⟨10, 5, 10, 0, 50, 80⟩ (by norm_num) (by norm_num) (by norm_num)).1 (by norm_num)⟩

/-- C6: `positions_to_close` computes exactly the staged-closing formula
the specification states — 0 when the stage reference is absent or ≤ 0,
when there are no open positions, or when the wallet has not net-sold
since the stage began; otherwise
`floor(((ref - pt) / ref * 100) / (threshold / count))` clamped to
`[0, count]` — and on the spec's example (count 2, threshold 80, ref 100,
post-tracking 60) it closes exactly 1 position. -/
theorem claim_C6_close_policy_formula :
    (∀ (inp : ClosePolicyInput) (settings : StrategySettings),
      positions_to_close inp settings =
        closePolicySpecFormula inp.ledger.close_stage_ref_post_tracking_shares
          inp.ledger.post_tracking_shares inp.open_positions_count
          settings.close_total_threshold_pct) ∧
    positions_to_close ⟨⟨"w", "a", 0, 60, some 100⟩, 2⟩ ⟨10, 5, 10, 0, 0, 80⟩ = 1 := by
  constructor
  · intro inp settings
    unfold positions_to_close closePolicySpecFormula
    rcases href : inp.ledger.close_stage_ref_post_tracking_shares with _ | ref
    · split <;> rfl
    · dsimp only
      by_cases hc : inp.open_positions_count ≤ 0
      · rw [if_pos hc]
        by_cases hr : ref ≤ 0
        · rw [if_pos hr]
        · rw [if_neg hr, if_pos (Nat.le_zero.mp hc)]
      · rw [if_neg hc]
        by_cases hr : ref ≤ 0
        · rw [if_pos hr, if_pos hr]
        · rw [if_neg hr, if_neg hr,
            if_neg (fun h0 => hc (Nat.le_of_eq h0))]
          by_cases hpt : ref ≤ inp.ledger.post_tracking_shares
          · rw [if_pos hpt, if_pos hpt]
          · rw [if_neg hpt, if_neg hpt]
            by_cases hper :
                settings.close_total_threshold_pct / (inp.open_positions_count : ℚ) ≤ 0
            · rw [if_pos hper]
              have hrefpos : (0 : ℚ) < ref := lt_of_not_le hr
              have hstage :
                  0 ≤ (ref - inp.ledger.post_tracking_shares) / ref * 100 :=
                mul_nonneg
                  (div_nonneg (by linarith [lt_of_not_le hpt]) hrefpos.le) (by norm_num)
              have hquot :
                  (ref - inp.ledger.post_tracking_shares) / ref * 100 /
                    (settings.close_total_threshold_pct / (inp.open_positions_count : ℚ)) ≤ 0 :=
                div_nonpos_of_nonneg_of_nonpos hstage hper
              have hfloor :
                  ⌊(ref - inp.ledger.post_tracking_shares) / ref * 100 /
                    (settings.close_total_threshold_pct / (inp.open_positions_count : ℚ))⌋ ≤ 0 := by
                calc ⌊(ref - inp.ledger.post_tracking_shares) / ref * 100 /
                    (settings.close_total_threshold_pct / (inp.open_positions_count : ℚ))⌋ ≤
                      ⌊(0 : ℚ)⌋ := Int.floor_le_floor hquot
                  _ = 0 := Int.floor_zero
              have hmin :
                  min ⌊(ref - inp.ledger.post_tracking_shares) / ref * 100 /
                      (settings.close_total_threshold_pct /
                        (inp.open_positions_count : ℚ))⌋
                    (inp.open_positions_count : ℤ) ≤ 0 :=
                le_trans (min_le_left _ _) hfloor
              rw [max_eq_left hmin]
            · rw [if_neg hper]
  · norm_num [positions_to_close]

/-- C8: for a fixed positive stage reference, fixed settings and a fixed
open position count, the close policy is monotone in wallet sell-through:
lowering `post_tracking_shares` never lowers the number of positions to
close. -/
theorem claim_C8_close_policy_monotone (settings : StrategySettings) (count : ℕ)
    (w a : String) (snap ref pt1 pt2 : ℚ)
    (href : 0 < ref) (h12 : pt2 ≤ pt1) :
    positions_to_close ⟨⟨w, a, snap, pt1, some ref⟩, count⟩ settings ≤
      positions_to_close ⟨⟨w, a, snap, pt2, some ref⟩, count⟩ settings := by
  unfold positions_to_close
  dsimp only
  by_cases hc : count ≤ 0
  · rw [if_pos hc, if_pos hc]
  · rw [if_neg hc, if_neg hc, if_neg (not_le.mpr href), if_neg (not_le.mpr href)]
    by_cases hp2 : ref ≤ pt2
    · rw [if_pos hp2, if_pos (le_trans hp2 h12)]
    · rw [if_neg hp2]
      by_cases hper : settings.close_total_threshold_pct / (count : ℚ) ≤ 0
      · rw [if_pos hper]
        by_cases hp1 : ref ≤ pt1
        · rw [if_pos hp1, if_pos hper]
        · rw [if_neg hp1, if_pos hper]
      · rw [if_neg hper]
        by_cases hp1 : ref ≤ pt1
        · rw [if_pos hp1, if_neg hper]
          exact le_max_left (0 : ℤ) _
        · rw [if_neg hp1, if_neg hper]
          have hperpos : 0 < settings.close_total_threshold_pct / (count : ℚ) :=
            lt_of_not_le hper
          have hstage : (ref - pt1) / ref * 100 ≤ (ref - pt2) / ref * 100 := by
            have hsub : ref - pt1 ≤ ref - pt2 := by linarith
            have hdiv : (ref - pt1) / ref ≤ (ref - pt2) / ref :=
              div_le_div_of_nonneg_right hsub href.le
            nlinarith [hdiv]
          exact max_le_max (le_refl 0)
            (min_le_min
              (Int.floor_le_floor (div_le_div_of_nonneg_right hstage hperpos.le))
              (le_refl _))

/-- Witness for C8: with count 2, threshold 80, ref 100, lowering
post-tracking from 60 to 39 does not lower the close count. -/
theorem claim_C8_witness :
    (0 : ℚ) < 100 ∧ (39 : ℚ) ≤ 60 ∧
    positions_to_close ⟨⟨"w", "a", 0, 60, some 100⟩, 2⟩ ⟨10, 5, 10, 0, 0, 80⟩ ≤
      positions_to_close ⟨⟨"w", "a", 0, 39, some 100⟩, 2⟩ ⟨10, 5, 10, 0, 0, 80⟩ :=
  ⟨by norm_num, by norm_num,
    claim_C8_close_policy_monotone ⟨10, 5, 10, 0, 0, 80⟩ 2 "w" "a" 0 100 60 39
      (by norm_num) (by norm_num)⟩

end PolymarketCopy
